import Mathlib

/-!
Shallow embedding of the go-workflows durable workflow engine core:
the history event model and its JSON serialization, the redis task queue
(`taskqueue` package, embedded from its Lua scripts and Go wrappers),
a backend state model over those queues, the client result surface,
the worker dispatch loop, and the activity executor.

Definitions are translated from the repository source; operations whose
implementation is not part of the provided sources (the redis backend's
`CreateWorkflowInstance`, `SignalWorkflow`, `GetWorkflowTask` and
`CompleteWorkflowTask` bodies, and the history serialization package)
are modelled from the specification and marked as such in doc comments.
-/

/-- The enumerated event types of the history model (spec section 3; Go
`history.EventType_*` constants). -/
inductive EventType where
  | executionStarted
  | executionFinished
  | executionCanceled
  | executionTerminated
  | taskStarted
  | activityScheduled
  | activityCompleted
  | activityFailed
  | timerScheduled
  | timerFired
  | signalReceived
  | subWorkflowScheduled
  | subWorkflowCompleted
  | subWorkflowCancellationRequested
deriving DecidableEq, Repr

/-- Modelled from the spec: type-specific polymorphic attribute payloads
(`history.*Attributes` structs, a tagged sum keyed by event type per spec
section 9; the history package itself is not part of the provided sources).
Payload contents are opaque strings; `executionFinished` carries the
`Result` and `Error` fields read by `GetWorkflowResult`, `executionStarted`
the `Name` and `Inputs` fields, `signalReceived` the `Name` and `Arg`
fields. -/
inductive Attr where
  | executionStarted (name : String) (inputs : String)
  | executionFinished (result : String) (error : String)
  | executionCanceled (payload : String)
  | executionTerminated (payload : String)
  | taskStarted (payload : String)
  | activityScheduled (name : String) (inputs : String)
  | activityCompleted (payload : String)
  | activityFailed (reason : String)
  | timerScheduled (payload : String)
  | timerFired (payload : String)
  | signalReceived (name : String) (arg : String)
  | subWorkflowScheduled (payload : String)
  | subWorkflowCompleted (payload : String)
  | subWorkflowCancellationRequested (payload : String)
deriving DecidableEq, Repr

/-- The event type an attribute payload belongs to (the tag of the tagged
sum). -/
def attrType : Attr → EventType
  | .executionStarted _ _ => .executionStarted
  | .executionFinished _ _ => .executionFinished
  | .executionCanceled _ => .executionCanceled
  | .executionTerminated _ => .executionTerminated
  | .taskStarted _ => .taskStarted
  | .activityScheduled _ _ => .activityScheduled
  | .activityCompleted _ => .activityCompleted
  | .activityFailed _ => .activityFailed
  | .timerScheduled _ => .timerScheduled
  | .timerFired _ => .timerFired
  | .signalReceived _ _ => .signalReceived
  | .subWorkflowScheduled _ => .subWorkflowScheduled
  | .subWorkflowCompleted _ => .subWorkflowCompleted
  | .subWorkflowCancellationRequested _ => .subWorkflowCancellationRequested

/-- A history event (`history.Event`): stable id, sequence id assigned at
checkpoint time, timestamp, type, polymorphic attributes, the schedule
event id tying completions to their scheduling event, and the optional
visibility time for future events (spec section 3). -/
structure Event where
  id : String
  sequenceID : Int
  timestamp : Int
  type : EventType
  attributes : Attr
  scheduleEventID : Int
  visibleAt : Option Int
deriving DecidableEq, Repr

/-- Modelled from the spec: the self-describing JSON form of an event's
attributes (field name / value pairs; attribute structs have one or two
string fields in this model). -/
inductive AttrJson where
  | one (field : String) (value : String)
  | two (field1 : String) (value1 : String) (field2 : String) (value2 : String)
deriving DecidableEq, Repr

/-- Modelled from the spec: the self-describing JSON serialization of a
history event, with a `type` tag string, polymorphic `attributes`, and the
numeric fields of spec section 3 (`visible_at` is JSON null when absent).
The history serialization package is not part of the provided sources. -/
structure EventJson where
  id : String
  sequenceID : Int
  timestamp : Int
  typeTag : String
  attributes : AttrJson
  scheduleEventID : Int
  visibleAt : Option Int
deriving DecidableEq, Repr

/-- The wire tag for each event type. -/
def eventTypeTag : EventType → String
  | .executionStarted => "ExecutionStarted"
  | .executionFinished => "ExecutionFinished"
  | .executionCanceled => "ExecutionCanceled"
  | .executionTerminated => "ExecutionTerminated"
  | .taskStarted => "TaskStarted"
  | .activityScheduled => "ActivityScheduled"
  | .activityCompleted => "ActivityCompleted"
  | .activityFailed => "ActivityFailed"
  | .timerScheduled => "TimerScheduled"
  | .timerFired => "TimerFired"
  | .signalReceived => "SignalReceived"
  | .subWorkflowScheduled => "SubWorkflowScheduled"
  | .subWorkflowCompleted => "SubWorkflowCompleted"
  | .subWorkflowCancellationRequested => "SubWorkflowCancellationRequested"

/-- All known event types. -/
def allEventTypes : List EventType :=
  [.executionStarted, .executionFinished, .executionCanceled, .executionTerminated,
   .taskStarted, .activityScheduled, .activityCompleted, .activityFailed,
   .timerScheduled, .timerFired, .signalReceived,
   .subWorkflowScheduled, .subWorkflowCompleted, .subWorkflowCancellationRequested]

/-- Resolve a wire tag to a known event type; `none` for unknown tags. -/
def eventTypeOfTag (s : String) : Option EventType :=
  allEventTypes.find? (fun t => eventTypeTag t == s)

/-- Serialize an attribute payload by its constructor (serialization
dispatches on the tag, spec section 9). -/
def serializeAttr : Attr → AttrJson
  | .executionStarted n i => .two "Name" n "Inputs" i
  | .executionFinished r e => .two "Result" r "Error" e
  | .executionCanceled p => .one "Payload" p
  | .executionTerminated p => .one "Payload" p
  | .taskStarted p => .one "Payload" p
  | .activityScheduled n i => .two "Name" n "Inputs" i
  | .activityCompleted p => .one "Result" p
  | .activityFailed r => .one "Reason" r
  | .timerScheduled p => .one "Payload" p
  | .timerFired p => .one "Payload" p
  | .signalReceived n a => .two "Name" n "Arg" a
  | .subWorkflowScheduled p => .one "Payload" p
  | .subWorkflowCompleted p => .one "Result" p
  | .subWorkflowCancellationRequested p => .one "Payload" p

/-- Deserialize an attribute payload, selecting the expected shape by the
event type read from the wire tag. -/
def deserializeAttr : EventType → AttrJson → Except String Attr
  | .executionStarted, .two "Name" n "Inputs" i => .ok (.executionStarted n i)
  | .executionFinished, .two "Result" r "Error" e => .ok (.executionFinished r e)
  | .executionCanceled, .one "Payload" p => .ok (.executionCanceled p)
  | .executionTerminated, .one "Payload" p => .ok (.executionTerminated p)
  | .taskStarted, .one "Payload" p => .ok (.taskStarted p)
  | .activityScheduled, .two "Name" n "Inputs" i => .ok (.activityScheduled n i)
  | .activityCompleted, .one "Result" p => .ok (.activityCompleted p)
  | .activityFailed, .one "Reason" r => .ok (.activityFailed r)
  | .timerScheduled, .one "Payload" p => .ok (.timerScheduled p)
  | .timerFired, .one "Payload" p => .ok (.timerFired p)
  | .signalReceived, .two "Name" n "Arg" a => .ok (.signalReceived n a)
  | .subWorkflowScheduled, .one "Payload" p => .ok (.subWorkflowScheduled p)
  | .subWorkflowCompleted, .one "Result" p => .ok (.subWorkflowCompleted p)
  | .subWorkflowCancellationRequested, .one "Payload" p =>
      .ok (.subWorkflowCancellationRequested p)
  | _, _ => .error "mismatched attributes for event type"

/-- Serialize a history event to its self-describing JSON form. -/
def serializeEvent (e : Event) : EventJson :=
  ⟨e.id, e.sequenceID, e.timestamp, eventTypeTag e.type, serializeAttr e.attributes,
   e.scheduleEventID, e.visibleAt⟩

/-- Deserialize a history event from its JSON form; unknown type tags are
rejected. -/
def deserializeEvent (j : EventJson) : Except String Event :=
  match eventTypeOfTag j.typeTag with
  | none => .error ("unknown event type: " ++ j.typeTag)
  | some t =>
    match deserializeAttr t j.attributes with
    | .error e => .error e
    | .ok a => .ok ⟨j.id, j.sequenceID, j.timestamp, t, a, j.scheduleEventID, j.visibleAt⟩

/-! ## Task queue (`backend/redis/taskqueue`, embedded from the Go source
and its Lua scripts) -/

/-- A task queue stream entry (`TaskItem` and the `XADD`-ed message of
`enqueueCmd`): the generated stream message id (the lease handle), the
caller-provided id (the instance id), and the serialized data stored with
the task. -/
structure TaskItem where
  taskID : String
  id : String
  data : String
deriving DecidableEq, Repr

/-- A consumer-group pending entry list (PEL) record for a delivered stream
message: owning consumer, idle time since last delivery or claim, and the
delivery counter. -/
structure PelEntry where
  msgID : String
  consumer : String
  idleTime : Nat
  deliveryCount : Nat
deriving DecidableEq, Repr

/-- The state of one task queue: the dedup set (`task-set:` key), the task
stream (`task-stream:` key) in append order, the consumer group's pending
entries, and a counter generating fresh stream message ids. -/
structure QueueState where
  set : List String
  stream : List TaskItem
  pel : List PelEntry
  nextMsgID : Nat
deriving DecidableEq, Repr

/-- An empty task queue. -/
def emptyQueue : QueueState := ⟨[], [], [], 0⟩

/-- `Enqueue` / `enqueueCmd`: atomically `SADD` the caller id to the dedup
set and, only when it was not already a member, `XADD` a task entry to the
stream. Returns the new message id, or `none` when the id was already
queued (the script returns nil and adds nothing). -/
def enqueue (q : QueueState) (id data : String) : QueueState × Option String :=
  if id ∈ q.set then (q, none)
  else
    let msgID := "msg-" ++ toString q.nextMsgID
    ({ q with set := id :: q.set,
              stream := q.stream ++ [⟨msgID, id, data⟩],
              nextMsgID := q.nextMsgID + 1 }, some msgID)

/-- `XRANGE streamKey taskID taskID`: the stream entry with the given
message id, if present. -/
def findTask (q : QueueState) (taskID : String) : Option TaskItem :=
  q.stream.find? (fun it => it.taskID == taskID)

/-- The Lua runtime error raised by `completeCmd` when `XRANGE` returns an
empty reply: the script's nil-check compares the empty table against nil,
so `task[1][2][2]` indexes a nil value and aborts the script. The script
writes nothing before this point. -/
def luaNilIndexError : String := "attempt to index a nil value"

/-- `Complete` / `completeCmd`: look up the task entry by message id in the
stream, then atomically `SREM` its caller id from the dedup set, `XACK` and
`XDEL` the stream entry. When the entry cannot be found (lease expired and
the task completed or deleted by another worker), `XRANGE` yields an empty
reply, the script aborts with a Lua error before any write, and the Go
wrapper surfaces it (the error is not `redis.Nil`, so it is wrapped and
returned when the enclosing pipeline executes). -/
def complete (q : QueueState) (taskID : String) : Except String QueueState :=
  match findTask q taskID with
  | none => .error ("completing task: " ++ luaNilIndexError)
  | some it =>
      .ok { q with
        set := q.set.erase it.id,
        stream := q.stream.filter (fun x => !(x.taskID == taskID)),
        pel := q.pel.filter (fun e => !(e.msgID == taskID)) }

/-- `Extend` / `XCLAIM` with `MinIdle: 0`: unconditionally claim the
message for the calling worker, resetting its idle timer and incrementing
its delivery counter (the Go comment: the non-`JUSTID` variant is used so
the retry counter increases). A message no longer in the pending entries
yields `redis.Nil`, which the wrapper ignores; `Extend` never reports a
lost or stolen lease. -/
def reclaimEntry (worker taskID : String) (e : PelEntry) : PelEntry :=
  if e.msgID == taskID then ⟨e.msgID, worker, 0, e.deliveryCount + 1⟩ else e

/-- The part of a pending entry `Extend` is expected to manage: owner and
idle time (the delivery counter is deliberately left out — the source
increments it on every claim). -/
def pelProj (e : PelEntry) : String × String × Nat := (e.msgID, e.consumer, e.idleTime)

/-- See `reclaimEntry`: `Extend` re-claims the message for the calling
worker via `XCLAIM` regardless of current owner or idle time. -/
def extend (q : QueueState) (worker taskID : String) : Except String QueueState :=
  .ok { q with pel := q.pel.map (reclaimEntry worker taskID) }

/-- The outcome of the blocking `XREADGROUP` call inside `Dequeue`:
`nilReply` when the block timeout elapses with no message (`redis.Nil`),
`msgs` with the delivered messages of the stream, or `readErr` for any
other client error — in particular the context error returned when the
caller's context is cancelled while the read blocks. -/
inductive XReadRes where
  | nilReply
  | msgs (items : List TaskItem)
  | readErr (e : String)
deriving DecidableEq, Repr

/-- `msgToTaskItem`: build a task item from a delivered stream message
(the generic task data stays in its serialized string form here). -/
def msgToTaskItem (m : TaskItem) : Except String TaskItem := .ok m

/-- `Dequeue`: first try to recover an abandoned message (`XAUTOCLAIM`,
passed in here as its outcome), then block on `XREADGROUP`. No available
task within the block timeout yields `(none)` with no error; a read error
(context cancellation included) is wrapped and returned as an error. -/
def dequeue (recoverRes : Except String (Option TaskItem)) (readRes : XReadRes) :
    Except String (Option TaskItem) :=
  match recoverRes with
  | .error e => .error ("checking for abandoned tasks: " ++ e)
  | .ok (some t) => .ok (some t)
  | .ok none =>
    match readRes with
    | .readErr e => .error ("dequeueing task: " ++ e)
    | .nilReply => .ok none
    | .msgs [] => .ok none
    | .msgs (m :: _) =>
      match msgToTaskItem m with
      | .error e => .error e
      | .ok t => .ok (some t)

/-! ## Backend state (spec section 4.1; the redis backend's compound
operations are modelled from the spec over the source-embedded queues) -/

/-- A workflow instance identity (`core.WorkflowInstance`): the
user-supplied instance id, the per-attempt execution id, and for
sub-workflows the parent instance id and parent schedule event id. -/
structure WorkflowInstance where
  instanceID : String
  executionID : String
  parentInstanceID : Option String
  parentScheduleEventID : Option Int
deriving DecidableEq, Repr

/-- Instance lifecycle state (`backend.WorkflowState`). -/
inductive WorkflowState where
  | active
  | finished
deriving DecidableEq, Repr

/-- Association-list lookup by string key. -/
def lookupL (l : List (String × List Event)) (k : String) : List Event :=
  match l.find? (fun p => p.1 == k) with
  | none => []
  | some p => p.2

/-- Append events to the entry of a string key, creating it when absent. -/
def appendL (l : List (String × List Event)) (k : String) (evs : List Event) :
    List (String × List Event) :=
  match l with
  | [] => [(k, evs)]
  | (k', v) :: rest =>
      if k' == k then (k', v ++ evs) :: rest else (k', v) :: appendL rest k evs

/-- Drop the first `n` events of the entry of a string key. -/
def dropL (l : List (String × List Event)) (k : String) (n : Nat) :
    List (String × List Event) :=
  l.map (fun p => if p.1 == k then (p.1, p.2.drop n) else p)

/-- The persisted backend state (spec section 6 key layout): the instance
hash (identity and lifecycle state), per-instance histories, per-instance
pending buffers, the workflow and activity task queues, and the
future-event index (target instance id, visibility time, event). -/
structure BackendState where
  instances : List (WorkflowInstance × WorkflowState)
  histories : List (String × List Event)
  pending : List (String × List Event)
  workflowQueue : QueueState
  activityQueue : QueueState
  futureEvents : List (String × Int × Event)
deriving DecidableEq, Repr

/-- A workflow task (`task.Workflow`; spec section 3: task id is the lease
handle, plus instance, history snapshot, the new events delivered from the
pending buffer, and the count of delivered pending events standing in for
`last_pending_event_id`). -/
structure WFTask where
  taskID : String
  workflowInstance : WorkflowInstance
  history : List Event
  newEvents : List Event
  lastPendingCount : Nat
deriving DecidableEq, Repr

/-- Whether two workflow instances carry the same
`(instance_id, execution_id)` pair — the identity of an instance per spec
section 3 (parent fields are routing data, not identity). -/
def samePair (a b : WorkflowInstance) : Bool :=
  a.instanceID == b.instanceID && a.executionID == b.executionID

/-- Modelled from the spec: `CreateWorkflowInstance` (the redis backend
implementation is not part of the provided sources). Fails with
`InstanceAlreadyExists` when an instance with the same
`(instance_id, execution_id)` pair is present; otherwise atomically
records the instance as Active, appends the started event as the first
history entry, places it in the pending buffer for delivery with the
first task, and enqueues a workflow task on the source-embedded queue. -/
def createWorkflowInstance (s : BackendState) (inst : WorkflowInstance) (ev : Event) :
    Except String BackendState :=
  if s.instances.any (fun p => samePair p.1 inst) then .error "InstanceAlreadyExists"
  else
    .ok { s with
      instances := s.instances ++ [(inst, .active)],
      histories := appendL s.histories inst.instanceID [ev],
      pending := appendL s.pending inst.instanceID [ev],
      workflowQueue := (enqueue s.workflowQueue inst.instanceID "").1 }

/-- Modelled from the spec: `SignalWorkflow` (the redis backend
implementation is not part of the provided sources). Resolves the current
active execution by instance id alone, failing with `InstanceNotFound`
when absent or Finished; otherwise appends the signal event to the pending
buffer and enqueues the instance on the source-embedded workflow queue
(deduplicated when a task is already queued). -/
def signalWorkflow (s : BackendState) (iid : String) (ev : Event) :
    Except String BackendState :=
  match s.instances.find? (fun p => p.1.instanceID == iid && p.2 == WorkflowState.active) with
  | none => .error "InstanceNotFound"
  | some _ =>
      .ok { s with
        pending := appendL s.pending iid [ev],
        workflowQueue := (enqueue s.workflowQueue iid "").1 }

/-- Sequentially deliver a list of signal events to one instance. -/
def signalMany (s : BackendState) (iid : String) (evs : List Event) :
    Except String BackendState :=
  match evs with
  | [] => .ok s
  | e :: rest =>
    match signalWorkflow s iid e with
    | .error m => .error m
    | .ok s' => signalMany s' iid rest

/-- Modelled from the spec: `GetWorkflowTask` dequeue (the redis backend
implementation is not part of the provided sources). Leases the first
not-yet-delivered queue stream entry, recording it in the pending entries,
and returns a task whose new events are the target instance's pending
buffer contents at lease time — the buffer itself is not cleared until
`CompleteWorkflowTask`. -/
def getWorkflowTask (s : BackendState) (worker : String) :
    Option WFTask × BackendState :=
  match s.workflowQueue.stream.find?
      (fun it => !(s.workflowQueue.pel.any (fun e => e.msgID == it.taskID))) with
  | none => (none, s)
  | some it =>
    match s.instances.find? (fun p => p.1.instanceID == it.id) with
    | none => (none, s)
    | some pr =>
      let evs := lookupL s.pending it.id
      (some ⟨it.taskID, pr.1, lookupL s.histories it.id, evs, evs.length⟩,
       { s with workflowQueue := { s.workflowQueue with
           pel := s.workflowQueue.pel ++ [⟨it.taskID, worker, 0, 1⟩] } })

/-- Mark an instance Finished and clean its pending buffer and future
events (spec section 4.1, checkpoint step 6). -/
def markFinished (s : BackendState) (inst : WorkflowInstance) : BackendState :=
  { s with
    instances := s.instances.map (fun p => if p.1 == inst then (p.1, .finished) else p),
    pending := s.pending.filter (fun p => !(p.1 == inst.instanceID)),
    futureEvents := s.futureEvents.filter (fun f => !(f.1 == inst.instanceID)) }

/-- Modelled from the spec: route one `workflow_events` item during the
checkpoint (spec section 4.1, step 5). An event with a visibility time
goes to the future-event index; an `ExecutionStarted` for an unknown
instance creates it; otherwise the event is appended to the target
instance's pending buffer and the target is enqueued on the workflow
queue. -/
def routeWorkflowEvent (s : BackendState) (we : WorkflowInstance × Event) : BackendState :=
  match we.2.visibleAt with
  | some t => { s with futureEvents := s.futureEvents ++ [(we.1.instanceID, t, we.2)] }
  | none =>
    if we.2.type == EventType.executionStarted
        && !(s.instances.any (fun p => p.1 == we.1)) then
      match createWorkflowInstance s we.1 we.2 with
      | .ok s' => s'
      | .error _ => s
    else
      { s with
        pending := appendL s.pending we.1.instanceID [we.2],
        workflowQueue := (enqueue s.workflowQueue we.1.instanceID "").1 }

/-- Modelled from the spec: the atomic checkpoint `CompleteWorkflowTask`
(spec section 4.1; the redis backend implementation is not part of the
provided sources, while the queue completion it rests on is embedded from
the source Lua script). It first completes the queue entry — verifying the
lease is still held; when the task entry cannot be found the queue script
fails and the whole operation aborts with `LeaseLost` and no state change.
Otherwise it appends the executed events to the history, trims the
delivered prefix from the pending buffer, enqueues activity tasks, routes
cross-instance workflow events, and flips the instance to Finished when
requested — all-or-nothing. -/
def completeWorkflowTask (s : BackendState) (t : WFTask) (inst : WorkflowInstance)
    (st : WorkflowState) (executedEvents activityEvents : List Event)
    (workflowEvents : List (WorkflowInstance × Event)) : Except String BackendState :=
  match complete s.workflowQueue t.taskID with
  | .error _ => .error "LeaseLost"
  | .ok q' =>
    let s1 := { s with workflowQueue := q' }
    let s2 := { s1 with histories := appendL s1.histories inst.instanceID executedEvents }
    let s3 := { s2 with pending := dropL s2.pending inst.instanceID t.lastPendingCount }
    let s4 := { s3 with activityQueue :=
      activityEvents.foldl (fun q e => (enqueue q e.id "").1) s3.activityQueue }
    let s5 := workflowEvents.foldl routeWorkflowEvent s4
    .ok (if st == WorkflowState.finished then markFinished s5 inst else s5)

/-! ## Client result surface (`client/client.go`) -/

/-- The outcome of `GetWorkflowResult`: the decoded result value, the
stored workflow error surfaced as an error, the canceled sentinel
`ErrWorkflowCanceled`, the terminated sentinel `ErrWorkflowTerminated`,
the timeout error of `WaitForWorkflowInstance`, the
could-not-find-result-event error, or the runtime panic of the attribute
type assertion. The payload-to-value converter is modelled as the identity
on the stored payload (spec section 6: payloads are opaque byte strings). -/
inductive WFResult where
  | value (v : String)
  | errResult (msg : String)
  | canceled
  | terminated
  | timedOut
  | noResultEvent
  | panicked
deriving DecidableEq, Repr

/-- Whether an event type is terminal (spec section 3). -/
def isTerminalType : EventType → Bool
  | .executionFinished => true
  | .executionCanceled => true
  | .executionTerminated => true
  | _ => false

/-- The result read from one terminal event, per the switch in
`GetWorkflowResult`: an `ExecutionFinished` with a non-empty error field
becomes an error, otherwise its result field is decoded; canceled and
terminated map to their sentinels. The Go code asserts the attributes to
`*ExecutionCompletedAttributes`, which panics on a mismatched payload. -/
def resultOfTerminal (e : Event) : WFResult :=
  match e.type with
  | .executionFinished =>
    match e.attributes with
    | .executionFinished r err => if err == "" then .value r else .errResult err
    | _ => .panicked
  | .executionCanceled => .canceled
  | .executionTerminated => .terminated
  | _ => .noResultEvent

/-- The backwards iteration of `GetWorkflowResult` over the history,
given here the reversed history: the first event whose type is one of
`ExecutionFinished` / `ExecutionCanceled` / `ExecutionTerminated` decides
the result; an exhausted history yields the could-not-find-result error. -/
def findResultEvent : List Event → WFResult
  | [] => .noResultEvent
  | e :: rest =>
    match e.type with
    | .executionFinished => resultOfTerminal e
    | .executionCanceled => .canceled
    | .executionTerminated => .terminated
    | _ => findResultEvent rest

/-- `GetWorkflowResult`: `WaitForWorkflowInstance` polls the instance
state and fails with a timeout error when the instance does not reach
Finished within the timeout (`finishedInTime` is that outcome); otherwise
the full history is fetched and scanned backwards for the latest terminal
event. -/
def getWorkflowResult (finishedInTime : Bool) (h : List Event) : WFResult :=
  if finishedInTime then findResultEvent h.reverse else .timedOut

/-- The latest terminal event of a history: the first terminal event found
scanning backwards. -/
def latestTerminal (h : List Event) : Option Event :=
  h.reverse.find? (fun e => isTerminalType e.type)

/-! ## Worker loop (`internal/worker/workflow.go`) -/

/-- The race inside `poll`: a goroutine runs `GetWorkflowTask` and closes
`done`; the select returns `(nil, nil)` when the timeout-derived context
fires first, and the backend's pair when the call finishes first. -/
inductive PollRace where
  | ctxDone
  | backendDone (task : Option WFTask) (err : Option String)
deriving DecidableEq, Repr

/-- `poll`: `(nil, nil)` on context expiry, the backend's result
otherwise. -/
def poll : PollRace → Option WFTask × Option String
  | .ctxDone => (none, none)
  | .backendDone t e => (t, e)

/-- What a run of the worker's `handle` does, given whether `handleTask`
produced a result and whether the `CompleteWorkflowTask` checkpoint
errored. On either error the handler calls `logger.Panic` (and, in the
executor-error case, no early return follows, so even a non-panicking
logger would be followed by a nil dereference of `result`): the handler
goroutine panics after logging. -/
inductive HandleOutcome where
  | panicked (logMsg : String)
  | completed
deriving DecidableEq, Repr

/-- `handle`: run the executor via `handleTask`, then checkpoint via
`CompleteWorkflowTask`; `executorFailed` and `completeFailed` are the
error outcomes of those two calls. -/
def handle (executorFailed : Bool) (completeFailed : Bool) : HandleOutcome :=
  if executorFailed then .panicked "could not handle workflow task"
  else if completeFailed then .panicked "Could not complete workflow task"
  else .completed

/-- The goroutine the dispatcher spawns around `handle` defers only the
wait-group release and installs no recover, so a panicking handler
propagates and terminates the whole worker process. -/
def dispatcherRecovers : Bool := false

/-- Whether a handler outcome brings down the worker process: a panic
does whenever no recover is installed on the spawning goroutine. -/
def terminatesProcess : HandleOutcome → Bool
  | .panicked _ => !dispatcherRecovers
  | .completed => false

/-! ## Activity executor (`internal/activity/executor.go`) -/

/-- A value returned by a reflected activity call: the nil value, a
non-nil value satisfying the error interface, a plain convertible value,
or a value the converter rejects. -/
inductive RetVal where
  | nilRet
  | errValue (msg : String)
  | plainVal (v : String)
  | unconvertible
deriving DecidableEq, Repr

/-- `converter.DefaultConverter.To` applied to a reflected return value. -/
def converterTo : RetVal → Except String String
  | .nilRet => .ok "null"
  | .errValue m => .ok m
  | .plainVal v => .ok v
  | .unconvertible => .error "unsupported value"

/-- `IsNil` on a reflected return value. -/
def isNilVal : RetVal → Bool
  | .nilRet => true
  | _ => false

/-- The registered activity as seen through reflection: either not a
function at all, or a function together with whether its inputs convert
(`args.InputsToArgs`) and the values its call returns. -/
inductive ActivityImpl where
  | notAFunction
  | fn (inputsConvertible : Bool) (rets : List RetVal)
deriving DecidableEq, Repr

/-- The final step of `ExecuteActivity` over the last return value: a nil
error value yields the result payload with no error; a non-nil value
satisfying the error interface yields the result payload together with
that error; any other non-nil value yields no payload and the
does-not-satisfy-error-interface error. -/
def finishActivity (result : Option String) : RetVal → Option String × Option String
  | .nilRet => (result, none)
  | .errValue m => (result, some m)
  | _ => (none, some "activity error result does not satisfy error interface")

/-- `ExecuteActivity` (after the registry lookup): rejects a registered
value that is not a function, inputs that cannot be converted, and a
return arity other than one or two; with arity two the first value is
converted to the result payload (a conversion failure is an error), and
the last return value then decides the outcome via `finishActivity`.
Returns the pair (result payload, error) exactly as the Go function
returns `(payload.Payload, error)`. -/
def executeActivity : ActivityImpl → Option String × Option String
  | .notAFunction => (none, some "activity not a function")
  | .fn inputsConvertible rets =>
    if !inputsConvertible then (none, some "converting activity inputs")
    else
      match rets with
      | [r1] => finishActivity none r1
      | [r0, r1] =>
        match converterTo r0 with
        | .error e => (none, some ("converting activity result: " ++ e))
        | .ok p => finishActivity (some p) r1
      | _ => (none, some "activity has to return either (error) or (result, error)")

/-! ## Concrete sample data for witnesses and counterexamples -/

/-- A sample `ExecutionStarted` event. -/
def evStarted : Event :=
  ⟨"e1", 1, 0, .executionStarted, .executionStarted "wf1" "hello", 0, none⟩

/-- A sample signal event. -/
def evSignal (n : Nat) : Event :=
  ⟨"sig-" ++ toString n, 0, 0, .signalReceived, .signalReceived "greet" (toString n), 0, none⟩

/-- A sample top-level instance. -/
def inst1 : WorkflowInstance := ⟨"i1", "x1", none, none⟩

/-- An instance carrying the same `(instance_id, execution_id)` pair as
`inst1` but different parent routing fields: identical identity per spec
section 3. -/
def inst1AltParent : WorkflowInstance := ⟨"i1", "x1", some "p0", some 3⟩

/-- A queue whose single delivered task is held by another worker and has
been idle past any lease threshold. -/
def stolenQueue : QueueState :=
  ⟨["i1"], [⟨"m1", "i1", ""⟩], [⟨"m1", "other-worker", 120, 2⟩], 5⟩

/-- A backend state with one active instance (`i1`) whose initial task is
queued and one delivered signal in flight. -/
def signalState : BackendState :=
  { instances := [(inst1, .active)],
    histories := [("i1", [evStarted])],
    pending := [("i1", [evStarted])],
    workflowQueue := ⟨["i1"], [⟨"m1", "i1", ""⟩], [], 2⟩,
    activityQueue := emptyQueue,
    futureEvents := [] }

/-- The parent instance of the sub-workflow routing scenario. -/
def parInst : WorkflowInstance := ⟨"par1", "pe1", none, none⟩

/-- The sub-workflow instance of the routing scenario
(`core.NewSubWorkflowInstance`). -/
def subInst : WorkflowInstance := ⟨"sub1", "se1", some "par1", some 1⟩

/-- The routing scenario state: parent and sub-instance both active, the
parent's task (message `m1`) delivered and leased, the sub-instance not
currently queued; `pevs` and `sevs` are the instances' pending buffers. -/
def c8State (pevs sevs : List Event) : BackendState :=
  { instances := [(subInst, .active), (parInst, .active)],
    histories := [("sub1", []), ("par1", [])],
    pending := [("par1", pevs), ("sub1", sevs)],
    workflowQueue := ⟨["par1"], [⟨"m1", "par1", ""⟩], [⟨"m1", "w0", 0, 1⟩], 7⟩,
    activityQueue := emptyQueue,
    futureEvents := [] }

/-- A cancellation event targeted at a sub-instance, mirroring the test
fixture: type `ExecutionCanceled` with sub-workflow cancellation
attributes and no visibility time. -/
def c8Cancel (cid : String) (sid ts sch : Int) (payload : String) : Event :=
  ⟨cid, sid, ts, .executionCanceled, .subWorkflowCancellationRequested payload, sch, none⟩

/-- An unknown-type wire event used to check rejection on read. -/
def unknownWire : EventJson := ⟨"e9", 3, 0, "Bogus", .one "Payload" "p", 0, none⟩

/-- An empty backend state. -/
def emptyBackend : BackendState := ⟨[], [], [], emptyQueue, emptyQueue, []⟩

/-- A terminal `ExecutionFinished` event with an empty error field. -/
def evFinOk : Event :=
  ⟨"e2", 2, 0, .executionFinished, .executionFinished "hello world" "", 0, none⟩

/-- A terminal `ExecutionFinished` event with a stored error. -/
def evFinErr : Event :=
  ⟨"e3", 2, 0, .executionFinished, .executionFinished "" "workflow 1 not found", 0, none⟩

/-- A terminal `ExecutionCanceled` event. -/
def evCanceledEnd : Event :=
  ⟨"e4", 2, 0, .executionCanceled, .executionCanceled "", 0, none⟩

/-- A terminal `ExecutionTerminated` event. -/
def evTerminatedEnd : Event :=
  ⟨"e5", 2, 0, .executionTerminated, .executionTerminated "", 0, none⟩

/-! ## Helper lemmas -/

theorem eventTypeOfTag_tag (t : EventType) : eventTypeOfTag (eventTypeTag t) = some t := by
  cases t <;> rfl

theorem lookupL_appendL (l : List (String × List Event)) (k : String) (evs : List Event) :
    lookupL (appendL l k evs) k = lookupL l k ++ evs := by
  induction l with
  | nil => simp [appendL, lookupL, List.find?]
  | cons p rest ih =>
    by_cases h : p.1 = k
    · simp [appendL, lookupL, List.find?, h]
    · have hb : (p.1 == k) = false := by simp [h]
      simp [appendL, lookupL, List.find?, hb] at ih ⊢
      exact ih

theorem findResultEvent_eq (l : List Event) :
    findResultEvent l =
      (match l.find? (fun e => isTerminalType e.type) with
       | none => WFResult.noResultEvent
       | some e => resultOfTerminal e) := by
  induction l with
  | nil => rfl
  | cons e rest ih =>
    rcases e with ⟨eid, esid, ets, ety, eattr, esch, eva⟩
    cases ety <;>
      simp [findResultEvent, List.find?, isTerminalType, resultOfTerminal, ih]

/-! ## C6: event serialization round-trip and unknown-type rejection -/

/-- C6: for every history event whose attributes are the payload selected
by its (known, enumerated) type, deserializing the JSON serialization
yields an equal event, polymorphic attributes included; and deserializing
a wire form whose type tag resolves to no known event type is rejected
with an error. -/
theorem event_serialization_roundtrip :
    (∀ e : Event, attrType e.attributes = e.type →
       deserializeEvent (serializeEvent e) = Except.ok e) ∧
    (∀ j : EventJson, eventTypeOfTag j.typeTag = none →
       deserializeEvent j = Except.error ("unknown event type: " ++ j.typeTag)) := by
  constructor
  · intro e h
    rcases e with ⟨eid, esid, ets, ety, eattr, esch, eva⟩
    cases eattr <;> cases ety <;> first | rfl | simp [attrType] at h
  · intro j h
    simp [deserializeEvent, h]

/-- Witness for C6: a concrete round-trip through the wire form and a
concrete rejected unknown tag. -/
theorem event_serialization_roundtrip_witness :
    (attrType evStarted.attributes = evStarted.type ∧
     deserializeEvent (serializeEvent evStarted) = Except.ok evStarted) ∧
    (eventTypeOfTag unknownWire.typeTag = none ∧
     deserializeEvent unknownWire =
       Except.error ("unknown event type: " ++ unknownWire.typeTag)) :=
  ⟨⟨rfl, event_serialization_roundtrip.1 evStarted rfl⟩,
   ⟨rfl, event_serialization_roundtrip.2 unknownWire rfl⟩⟩

/-! ## C4: GetWorkflowResult exit behavior -/

/-- C4: when the instance does not reach Finished within the timeout,
`GetWorkflowResult` yields the timeout error; when it does, the latest
terminal history event decides the outcome — the decoded result when it is
`ExecutionFinished` with an empty error field, an error equal to the
stored error string when that field is non-empty, the canceled sentinel on
`ExecutionCanceled`, and the terminated sentinel on
`ExecutionTerminated`. -/
theorem getWorkflowResult_exit_behavior (h : List Event) :
    (getWorkflowResult false h = WFResult.timedOut) ∧
    (∀ e, latestTerminal h = some e →
      ((∀ r msg, e.type = EventType.executionFinished →
          e.attributes = Attr.executionFinished r msg →
          ((msg = "" → getWorkflowResult true h = WFResult.value r) ∧
           (msg ≠ "" → getWorkflowResult true h = WFResult.errResult msg))) ∧
       (e.type = EventType.executionCanceled →
          getWorkflowResult true h = WFResult.canceled) ∧
       (e.type = EventType.executionTerminated →
          getWorkflowResult true h = WFResult.terminated))) := by
  constructor
  · rfl
  · intro e he
    have hres : getWorkflowResult true h = resultOfTerminal e := by
      have h2 := findResultEvent_eq h.reverse
      unfold latestTerminal at he
      rw [he] at h2
      simpa [getWorkflowResult] using h2
    refine ⟨?_, ?_, ?_⟩
    · intro r msg hty hattr
      constructor
      · intro hmsg
        rw [hres]
        simp [resultOfTerminal, hty, hattr, hmsg]
      · intro hmsg
        rw [hres]
        simp [resultOfTerminal, hty, hattr, hmsg]
    · intro hty
      rw [hres]
      simp [resultOfTerminal, hty]
    · intro hty
      rw [hres]
      simp [resultOfTerminal, hty]

/-- Witness for C4: each exit branch at a concrete history. -/
theorem getWorkflowResult_exit_witness :
    (latestTerminal [evStarted, evFinOk] = some evFinOk ∧
     getWorkflowResult true [evStarted, evFinOk] = WFResult.value "hello world") ∧
    (latestTerminal [evStarted, evFinErr] = some evFinErr ∧
     getWorkflowResult true [evStarted, evFinErr] =
       WFResult.errResult "workflow 1 not found") ∧
    (latestTerminal [evStarted, evCanceledEnd] = some evCanceledEnd ∧
     getWorkflowResult true [evStarted, evCanceledEnd] = WFResult.canceled) ∧
    (latestTerminal [evStarted, evTerminatedEnd] = some evTerminatedEnd ∧
     getWorkflowResult true [evStarted, evTerminatedEnd] = WFResult.terminated) ∧
    getWorkflowResult false [evStarted] = WFResult.timedOut :=
  ⟨⟨rfl, ((((getWorkflowResult_exit_behavior [evStarted, evFinOk]).2 evFinOk rfl).1
      "hello world" "" rfl rfl).1 rfl)⟩,
   ⟨rfl, ((((getWorkflowResult_exit_behavior [evStarted, evFinErr]).2 evFinErr rfl).1
      "" "workflow 1 not found" rfl rfl).2 (by decide))⟩,
   ⟨rfl, (((getWorkflowResult_exit_behavior [evStarted, evCanceledEnd]).2
      evCanceledEnd rfl).2.1 rfl)⟩,
   ⟨rfl, (((getWorkflowResult_exit_behavior [evStarted, evTerminatedEnd]).2
      evTerminatedEnd rfl).2.2 rfl)⟩,
   (getWorkflowResult_exit_behavior [evStarted]).1⟩

/-! ## C10: ExecuteActivity outcomes -/

/-- C10 counterexample: the claim states a result payload is produced only
when the activity returns `(result, error)` with a nil error; but for an
activity returning a convertible result together with a non-nil error
value, `ExecuteActivity` returns the converted result payload alongside
the error (`return result, errInterface`), so a payload is produced with a
non-nil error. -/
theorem executeActivity_payload_with_error_counterexample :
    executeActivity (.fn true [.plainVal "42", .errValue "boom"]) =
      (some "42", some "boom") := rfl

/-- C10 (amended): `ExecuteActivity` returns an error and no payload when
the registered activity is not a function, when its inputs cannot be
converted, when its return arity is not one or two, when the result value
cannot be converted, and when the final return value is non-nil but does
not satisfy the error interface; it returns the result payload with a nil
error when the function returns `(result, error)` with a nil error; and it
returns the result payload together with the error when the function
returns `(result, error)` with a non-nil error satisfying the error
interface. -/
theorem executeActivity_amended :
    executeActivity .notAFunction = (none, some "activity not a function") ∧
    (∀ rets, executeActivity (.fn false rets) =
       (none, some "converting activity inputs")) ∧
    executeActivity (.fn true []) =
      (none, some "activity has to return either (error) or (result, error)") ∧
    (∀ a b c l, executeActivity (.fn true (a :: b :: c :: l)) =
       (none, some "activity has to return either (error) or (result, error)")) ∧
    (∀ v, executeActivity (.fn true [.plainVal v]) =
       (none, some "activity error result does not satisfy error interface")) ∧
    (∀ r1, executeActivity (.fn true [.unconvertible, r1]) =
       (none, some "converting activity result: unsupported value")) ∧
    (∀ v, executeActivity (.fn true [.plainVal v, .nilRet]) = (some v, none)) ∧
    (∀ v m, executeActivity (.fn true [.plainVal v, .errValue m]) = (some v, some m)) :=
  ⟨rfl, fun _ => rfl, rfl, fun _ _ _ _ => rfl, fun _ => rfl, fun _ => rfl,
   fun _ => rfl, fun _ _ => rfl⟩

/-! ## C9: worker handler failure behavior -/

/-- C9 counterexample: the claim states a failed handler logs and
terminates that handler only, without bringing down the worker process;
but `handle` calls `logger.Panic` on an executor error and the
dispatcher's goroutine installs no recover, so the handler outcome is a
panic that terminates the whole worker process. -/
theorem handle_failure_panics_counterexample :
    handle true false = HandleOutcome.panicked "could not handle workflow task" ∧
    terminatesProcess (handle true false) = true := ⟨rfl, rfl⟩

/-- C9 (amended): when handling a workflow task fails — executor error, or
backend error on the `CompleteWorkflowTask` checkpoint — the handler logs
at panic level and the handler goroutine panics; with no recover installed
by the dispatcher, the panic terminates the worker process (the lease
still lapses, so the task is redelivered to another worker process). A
successful run completes without panic. -/
theorem handle_failure_amended :
    (∀ c, handle true c = HandleOutcome.panicked "could not handle workflow task" ∧
       terminatesProcess (handle true c) = true) ∧
    (handle false true = HandleOutcome.panicked "Could not complete workflow task" ∧
       terminatesProcess (handle false true) = true) ∧
    (handle false false = HandleOutcome.completed ∧
       terminatesProcess (handle false false) = false) :=
  ⟨fun _ => ⟨rfl, rfl⟩, ⟨rfl, rfl⟩, ⟨rfl, rfl⟩⟩

/-! ## C3: ExtendWorkflowTask lease semantics -/

/-- C3 counterexample: the claim states `Extend` fails with an error
whenever the lease has expired and been claimed by another worker; but on
a queue whose only pending entry is owned by another worker and idle past
any lease threshold, `Extend` (XCLAIM with MinIdle 0) succeeds, silently
re-claiming the entry for the caller and incrementing its delivery
counter. -/
theorem extend_stolen_lease_counterexample :
    extend stolenQueue "me" "m1" =
      Except.ok ⟨["i1"], [⟨"m1", "i1", ""⟩], [⟨"m1", "me", 0, 3⟩], 5⟩ := rfl

/-- C3 (amended): `Extend` touches only the pending entries — dedup set,
stream and id counter are untouched — and never returns an error: it
unconditionally re-claims the task's pending entry for the calling worker,
resetting the idle timer (and, beyond the claim, incrementing the delivery
counter), even when the lease has expired and been claimed by another
worker. Entries for other tasks are unchanged, and repeating the call is
idempotent on ownership and idle time, leaving the one lease held by the
same worker. -/
theorem extend_reclaims_amended (q : QueueState) (w t : String) :
    ∃ q', extend q w t = Except.ok q' ∧
      q'.set = q.set ∧ q'.stream = q.stream ∧ q'.nextMsgID = q.nextMsgID ∧
      q'.pel.length = q.pel.length ∧
      (∀ e ∈ q'.pel, e.msgID = t → e.consumer = w ∧ e.idleTime = 0) ∧
      (∀ e ∈ q'.pel, e.msgID ≠ t → e ∈ q.pel) ∧
      ∃ q2, extend q' w t = Except.ok q2 ∧
        q2.pel.map pelProj = q'.pel.map pelProj := by
  refine ⟨_, rfl, rfl, rfl, rfl, by simp, ?_, ?_, _, rfl, ?_⟩
  · intro e he ht
    rcases List.mem_map.1 he with ⟨a, _, rfl⟩
    by_cases hm : a.msgID = t
    · simp [reclaimEntry, hm]
    · have : (a.msgID == t) = false := by simp [hm]
      simp [reclaimEntry, this] at ht ⊢
      exact absurd ht hm
  · intro e he ht
    rcases List.mem_map.1 he with ⟨a, ha, rfl⟩
    by_cases hm : a.msgID = t
    · simp [reclaimEntry, hm] at ht
    · have : (a.msgID == t) = false := by simp [hm]
      simpa [reclaimEntry, this] using ha
  · show ((q.pel.map (reclaimEntry w t)).map (reclaimEntry w t)).map pelProj =
        (q.pel.map (reclaimEntry w t)).map pelProj
    simp only [List.map_map]
    apply List.map_congr_left
    intro a _
    by_cases hm : a.msgID = t
    · simp [Function.comp, reclaimEntry, pelProj, hm]
    · have : (a.msgID == t) = false := by simp [hm]
      simp [Function.comp, reclaimEntry, pelProj, this]

/-- Witness for C3 (amended): the amended statement instantiated at the
stolen-lease queue. -/
theorem extend_reclaims_amended_witness :
    ∃ q', extend stolenQueue "me" "m1" = Except.ok q' ∧
      q'.set = stolenQueue.set ∧ q'.stream = stolenQueue.stream ∧
      q'.nextMsgID = stolenQueue.nextMsgID ∧
      q'.pel.length = stolenQueue.pel.length ∧
      (∀ e ∈ q'.pel, e.msgID = "m1" → e.consumer = "me" ∧ e.idleTime = 0) ∧
      (∀ e ∈ q'.pel, e.msgID ≠ "m1" → e ∈ stolenQueue.pel) ∧
      ∃ q2, extend q' "me" "m1" = Except.ok q2 ∧
        q2.pel.map pelProj = q'.pel.map pelProj :=
  extend_reclaims_amended stolenQueue "me" "m1"

/-! ## C2: GetWorkflowTask on timeout and cancellation -/

/-- C2 counterexample: the claim states every `GetWorkflowTask` call whose
context is cancelled returns nil with no error; but when the caller's
context is cancelled while the queue read blocks, `XREADGROUP` returns the
context error (not `redis.Nil`), and `Dequeue` wraps and returns it as an
error. -/
theorem dequeue_cancellation_error_counterexample :
    dequeue (Except.ok none) (XReadRes.readErr "context canceled") =
      Except.error "dequeueing task: context canceled" := rfl

/-- C2 (amended): when the poll/block timeout elapses with no task
available, `Dequeue` returns no task and no error (the `redis.Nil` and
empty-reply paths), keeping an idle queue distinguishable from a backend
failure; when the context is cancelled mid-read, it returns no task and a
wrapped context error; and the worker's `poll` converts context expiry
into `(nil, nil)` regardless, forwarding the backend's pair otherwise. -/
theorem dequeue_timeout_nil_amended :
    dequeue (Except.ok none) XReadRes.nilReply = Except.ok none ∧
    dequeue (Except.ok none) (XReadRes.msgs []) = Except.ok none ∧
    (∀ e, dequeue (Except.ok none) (XReadRes.readErr e) =
       Except.error ("dequeueing task: " ++ e)) ∧
    poll PollRace.ctxDone = (none, none) ∧
    (∀ t e, poll (PollRace.backendDone t e) = (t, e)) :=
  ⟨rfl, rfl, fun _ => rfl, rfl, fun _ _ => rfl⟩

/-! ## C1: CompleteWorkflowTask on a lost lease -/

/-- C1: when a workflow task's lease is no longer held — its task entry
cannot be found in the queue stream — the queue's `Complete` does not
silently ignore the condition: its script aborts with a Lua error before
any write, and the checkpoint surfaces the condition as `LeaseLost`,
producing no new state (history, pending buffer, queues and instance state
unchanged: nothing is written on the error path). -/
theorem completeWorkflowTask_leaseLost (s : BackendState) (t : WFTask)
    (inst : WorkflowInstance) (st : WorkflowState)
    (executedEvents activityEvents : List Event)
    (workflowEvents : List (WorkflowInstance × Event))
    (h : findTask s.workflowQueue t.taskID = none) :
    complete s.workflowQueue t.taskID =
      Except.error ("completing task: " ++ luaNilIndexError) ∧
    completeWorkflowTask s t inst st executedEvents activityEvents workflowEvents =
      Except.error "LeaseLost" ∧
    ∀ s', completeWorkflowTask s t inst st executedEvents activityEvents workflowEvents ≠
      Except.ok s' := by
  have h1 : complete s.workflowQueue t.taskID =
      Except.error ("completing task: " ++ luaNilIndexError) := by
    unfold complete
    rw [h]
  have h2 : completeWorkflowTask s t inst st executedEvents activityEvents workflowEvents =
      Except.error "LeaseLost" := by
    unfold completeWorkflowTask
    rw [h1]
  exact ⟨h1, h2, fun s' hs => by rw [h2] at hs; exact absurd hs (by simp)⟩

/-- Witness for C1: completing with a task id absent from the queue stream
fails with `LeaseLost` on a concrete state. -/
theorem completeWorkflowTask_leaseLost_witness :
    findTask signalState.workflowQueue "zz" = none ∧
    completeWorkflowTask signalState ⟨"zz", inst1, [], [], 0⟩ inst1
      WorkflowState.active [] [] [] = Except.error "LeaseLost" :=
  ⟨rfl, (completeWorkflowTask_leaseLost signalState ⟨"zz", inst1, [], [], 0⟩ inst1
      WorkflowState.active [] [] [] rfl).2.1⟩

/-! ## C7: CreateWorkflowInstance duplicates and atomicity -/

/-- C7: `CreateWorkflowInstance` fails with `InstanceAlreadyExists`
whenever an instance with the same `(instance_id, execution_id)` pair is
present (producing no state), and the operation is atomic: a successful
call produces a state holding both the `ExecutionStarted` history entry
and a workflow-queue entry for the new instance — on failure neither is
written. -/
theorem createWorkflowInstance_duplicate_atomic (s : BackendState)
    (inst : WorkflowInstance) (ev : Event) :
    (s.instances.any (fun p => samePair p.1 inst) = true →
       createWorkflowInstance s inst ev = Except.error "InstanceAlreadyExists") ∧
    (s.instances.any (fun p => samePair p.1 inst) = false →
     inst.instanceID ∉ s.workflowQueue.set →
     ∃ s', createWorkflowInstance s inst ev = Except.ok s' ∧
       ev ∈ lookupL s'.histories inst.instanceID ∧
       ∃ it ∈ s'.workflowQueue.stream, it.id = inst.instanceID) := by
  constructor
  · intro h
    simp [createWorkflowInstance, h]
  · intro h hq
    have hc : createWorkflowInstance s inst ev = Except.ok
        { s with
          instances := s.instances ++ [(inst, WorkflowState.active)],
          histories := appendL s.histories inst.instanceID [ev],
          pending := appendL s.pending inst.instanceID [ev],
          workflowQueue := (enqueue s.workflowQueue inst.instanceID "").1 } := by
      simp [createWorkflowInstance, h]
    refine ⟨_, hc, ?_, ?_⟩
    · show ev ∈ lookupL (appendL s.histories inst.instanceID [ev]) inst.instanceID
      rw [lookupL_appendL]
      simp
    · show ∃ it ∈ (enqueue s.workflowQueue inst.instanceID "").1.stream,
        it.id = inst.instanceID
      unfold enqueue
      rw [if_neg hq]
      exact ⟨⟨"msg-" ++ toString s.workflowQueue.nextMsgID, inst.instanceID, ""⟩,
        by simp, rfl⟩

/-- Witness for C7: a duplicate creation fails on a concrete populated
state, and a fresh creation on the empty state writes both the history
entry and the queue entry. -/
theorem createWorkflowInstance_duplicate_atomic_witness :
    (signalState.instances.any (fun p => samePair p.1 inst1) = true ∧
     createWorkflowInstance signalState inst1 evStarted =
       Except.error "InstanceAlreadyExists") ∧
    (signalState.instances.any (fun p => samePair p.1 inst1AltParent) = true ∧
     createWorkflowInstance signalState inst1AltParent evStarted =
       Except.error "InstanceAlreadyExists") ∧
    (emptyBackend.instances.any (fun p => samePair p.1 inst1) = false ∧
     inst1.instanceID ∉ emptyBackend.workflowQueue.set ∧
     ∃ s', createWorkflowInstance emptyBackend inst1 evStarted = Except.ok s' ∧
       evStarted ∈ lookupL s'.histories inst1.instanceID ∧
       ∃ it ∈ s'.workflowQueue.stream, it.id = inst1.instanceID) :=
  ⟨⟨rfl, (createWorkflowInstance_duplicate_atomic signalState inst1 evStarted).1 rfl⟩,
   ⟨rfl,
    (createWorkflowInstance_duplicate_atomic signalState inst1AltParent evStarted).1 rfl⟩,
   ⟨rfl, by decide,
    (createWorkflowInstance_duplicate_atomic emptyBackend inst1 evStarted).2 rfl
      (by decide)⟩⟩

/-! ## C5: idempotent enqueue and single delivery of accumulated signals -/

theorem enqueue_member (q : QueueState) (id d : String) (h : id ∈ q.set) :
    enqueue q id d = (q, none) := by
  simp [enqueue, h]

theorem signalWorkflow_queued (s : BackendState) (iid : String) (ev : Event)
    (pr : WorkflowInstance × WorkflowState)
    (hpr : s.instances.find?
      (fun p => p.1.instanceID == iid && p.2 == WorkflowState.active) = some pr)
    (hq : iid ∈ s.workflowQueue.set) :
    signalWorkflow s iid ev = Except.ok { s with pending := appendL s.pending iid [ev] } := by
  unfold signalWorkflow
  rw [hpr, enqueue_member s.workflowQueue iid "" hq]

theorem signalMany_queued (iid : String) (evs : List Event) :
    ∀ s : BackendState,
      (s.instances.find?
        (fun p => p.1.instanceID == iid && p.2 == WorkflowState.active)).isSome = true →
      iid ∈ s.workflowQueue.set →
      ∃ s', signalMany s iid evs = Except.ok s' ∧
        s'.workflowQueue = s.workflowQueue ∧
        s'.instances = s.instances ∧
        s'.histories = s.histories ∧
        lookupL s'.pending iid = lookupL s.pending iid ++ evs := by
  induction evs with
  | nil =>
    intro s _ _
    exact ⟨s, rfl, rfl, rfl, rfl, by simp⟩
  | cons e rest ih =>
    intro s h hq
    rcases Option.isSome_iff_exists.1 h with ⟨pr, hpr⟩
    have hs1 := signalWorkflow_queued s iid e pr hpr hq
    rcases ih { s with pending := appendL s.pending iid [e] } h hq
      with ⟨s', h1, h2, h3, h4, h5⟩
    refine ⟨s', ?_, h2, h3, h4, ?_⟩
    · unfold signalMany
      rw [hs1]
      exact h1
    · rw [h5]
      show lookupL (appendL s.pending iid [e]) iid ++ rest = lookupL s.pending iid ++ (e :: rest)
      rw [lookupL_appendL]
      simp

theorem getWorkflowTask_delivers (s : BackendState) (w : String) (it : TaskItem)
    (pr : WorkflowInstance × WorkflowState)
    (hstream : s.workflowQueue.stream = [it])
    (hpel : s.workflowQueue.pel = [])
    (hfind : s.instances.find? (fun p => p.1.instanceID == it.id) = some pr) :
    ∃ tk s2, getWorkflowTask s w = (some tk, s2) ∧
      tk.workflowInstance = pr.1 ∧
      tk.newEvents = lookupL s.pending it.id := by
  unfold getWorkflowTask
  rw [hstream, hpel]
  simp only [List.any_nil, Bool.not_false, List.find?, hfind]
  exact ⟨_, _, rfl, rfl, rfl⟩

/-- C5: the queue's dedup set and stream change together atomically —
enqueueing an id already in the set changes nothing and adds no stream
entry; enqueueing a fresh id adds the set member and the stream entry in
one step; completing a found task removes its set member, its stream entry
and its pending entry in one step — and N signals delivered to an instance
whose task is already queued leave the queue (hence its single task entry)
untouched while the pending buffer accumulates all N signal events, so the
one delivery of that task carries all N of them. -/
theorem enqueue_dedup_single_delivery :
    (∀ (q : QueueState) (id d : String), id ∈ q.set → enqueue q id d = (q, none)) ∧
    (∀ (q : QueueState) (id d : String), id ∉ q.set →
       (enqueue q id d).1.set = id :: q.set ∧
       (enqueue q id d).1.stream =
         q.stream ++ [⟨"msg-" ++ toString q.nextMsgID, id, d⟩]) ∧
    (∀ (q : QueueState) (tid : String) (q' : QueueState),
       complete q tid = Except.ok q' →
       ∃ it, findTask q tid = some it ∧
         q'.set = q.set.erase it.id ∧
         q'.stream = q.stream.filter (fun x => !(x.taskID == tid)) ∧
         q'.pel = q.pel.filter (fun e => !(e.msgID == tid))) ∧
    (∀ (s : BackendState) (iid : String) (evs : List Event),
       (s.instances.find?
         (fun p => p.1.instanceID == iid && p.2 == WorkflowState.active)).isSome = true →
       iid ∈ s.workflowQueue.set →
       ∃ s', signalMany s iid evs = Except.ok s' ∧
         s'.workflowQueue = s.workflowQueue ∧
         s'.instances = s.instances ∧
         lookupL s'.pending iid = lookupL s.pending iid ++ evs) ∧
    (∀ (s : BackendState) (w : String) (it : TaskItem)
       (pr : WorkflowInstance × WorkflowState),
       s.workflowQueue.stream = [it] →
       s.workflowQueue.pel = [] →
       s.instances.find? (fun p => p.1.instanceID == it.id) = some pr →
       ∃ tk s2, getWorkflowTask s w = (some tk, s2) ∧
         tk.workflowInstance = pr.1 ∧
         tk.newEvents = lookupL s.pending it.id) := by
  refine ⟨enqueue_member, ?_, ?_, ?_, getWorkflowTask_delivers⟩
  · intro q id d h
    unfold enqueue
    rw [if_neg h]
    exact ⟨rfl, rfl⟩
  · intro q tid q' h
    unfold complete at h
    cases hf : findTask q tid with
    | none => rw [hf] at h; exact absurd h (by simp)
    | some it =>
      rw [hf] at h
      cases h
      exact ⟨it, rfl, rfl, rfl, rfl⟩
  · intro s iid evs h hq
    rcases signalMany_queued iid evs s h hq with ⟨s', h1, h2, h3, _, h5⟩
    exact ⟨s', h1, h2, h3, h5⟩

/-- Witness for C5: each part instantiated concretely — duplicate enqueue
on the queued instance changes nothing; a fresh enqueue on the empty queue
adds both entries; completing the queued task removes both; two signals to
the queued instance accumulate in the pending buffer with the queue
untouched; and the single task delivery carries both signal events. -/
theorem enqueue_dedup_single_delivery_witness :
    ("i1" ∈ signalState.workflowQueue.set ∧
     enqueue signalState.workflowQueue "i1" "" = (signalState.workflowQueue, none)) ∧
    ("a" ∉ emptyQueue.set ∧
     (enqueue emptyQueue "a" "d").1.set = ["a"] ∧
     (enqueue emptyQueue "a" "d").1.stream = [⟨"msg-0", "a", "d"⟩]) ∧
    (complete signalState.workflowQueue "m1" = Except.ok ⟨[], [], [], 2⟩ ∧
     ∃ it, findTask signalState.workflowQueue "m1" = some it ∧
       (⟨[], [], [], 2⟩ : QueueState).set = signalState.workflowQueue.set.erase it.id ∧
       (⟨[], [], [], 2⟩ : QueueState).stream =
         signalState.workflowQueue.stream.filter (fun x => !(x.taskID == "m1")) ∧
       (⟨[], [], [], 2⟩ : QueueState).pel =
         signalState.workflowQueue.pel.filter (fun e => !(e.msgID == "m1"))) ∧
    ((signalState.instances.find?
       (fun p => p.1.instanceID == "i1" && p.2 == WorkflowState.active)).isSome = true ∧
     "i1" ∈ signalState.workflowQueue.set ∧
     ∃ s', signalMany signalState "i1" [evSignal 1, evSignal 2] = Except.ok s' ∧
       s'.workflowQueue = signalState.workflowQueue ∧
       s'.instances = signalState.instances ∧
       lookupL s'.pending "i1" =
         lookupL signalState.pending "i1" ++ [evSignal 1, evSignal 2]) ∧
    (signalState.workflowQueue.stream = [⟨"m1", "i1", ""⟩] ∧
     signalState.workflowQueue.pel = [] ∧
     signalState.instances.find?
       (fun p => p.1.instanceID == (⟨"m1", "i1", ""⟩ : TaskItem).id) =
         some (inst1, WorkflowState.active) ∧
     ∃ tk s2, getWorkflowTask signalState "w" = (some tk, s2) ∧
       tk.workflowInstance = inst1 ∧
       tk.newEvents = lookupL signalState.pending "i1") :=
  ⟨⟨by decide, enqueue_dedup_single_delivery.1 signalState.workflowQueue "i1" ""
      (by decide)⟩,
   ⟨by decide, (enqueue_dedup_single_delivery.2.1 emptyQueue "a" "d" (by decide)).1,
      (enqueue_dedup_single_delivery.2.1 emptyQueue "a" "d" (by decide)).2⟩,
   ⟨rfl, enqueue_dedup_single_delivery.2.2.1 signalState.workflowQueue "m1"
      ⟨[], [], [], 2⟩ rfl⟩,
   ⟨rfl, by decide, enqueue_dedup_single_delivery.2.2.2.1 signalState "i1"
      [evSignal 1, evSignal 2] rfl (by decide)⟩,
   ⟨rfl, rfl, rfl, enqueue_dedup_single_delivery.2.2.2.2 signalState "w"
      ⟨"m1", "i1", ""⟩ (inst1, WorkflowState.active) rfl rfl rfl⟩⟩

/-! ## C8: routing a cancellation to a sub-instance -/

/-- C8: with parent and sub-instance both active and the parent's task
leased, a `CompleteWorkflowTask` whose `workflow_events` carry an
`ExecutionCanceled` event targeting the sub-instance routes that event to
the sub-instance's pending buffer and enqueues the sub-instance, so the
subsequent `GetWorkflowTask` returns a task for the sub-instance whose
last new event is that `ExecutionCanceled` event. -/
theorem subworkflow_cancellation_routing (pevs sevs executed : List Event)
    (cid payload : String) (sid ts sch : Int) (w : String) :
    ∃ s' tk s2,
      completeWorkflowTask (c8State pevs sevs) ⟨"m1", parInst, [], pevs, pevs.length⟩
        parInst WorkflowState.active executed []
        [(subInst, c8Cancel cid sid ts sch payload)] = Except.ok s' ∧
      getWorkflowTask s' w = (some tk, s2) ∧
      tk.workflowInstance = subInst ∧
      tk.newEvents.getLast? = some (c8Cancel cid sid ts sch payload) ∧
      (c8Cancel cid sid ts sch payload).type = EventType.executionCanceled := by
  refine ⟨_, _, _, rfl, rfl, rfl, ?_, rfl⟩
  show (sevs ++ [c8Cancel cid sid ts sch payload]).getLast? =
    some (c8Cancel cid sid ts sch payload)
  exact List.getLast?_concat _
